import Mathlib

/-!
Verification of the spreadsheet-to-report scripts `extract_fields.py` and
`extract_tables.py`.

A spreadsheet cell is `Option String` (`none` models a blank cell, which
pandas reads as NaN); a sheet is a list of rows of cells.  `pd.read_excel`
with `skiprows = k` drops the first `k` physical rows and consumes the next
row as the column header.  Column selection by label (`df[[...]]`) is
modelled by locating the label in the header row and projecting each data
row at that index; `dropna()` keeps only rows whose selected cells are all
present.  Each `print(x)` call contributes one element to the output list.
-/

abbrev Cell := Option String

abbrev Row := List Cell

abbrev Sheet := List Row

/-- A workbook: sheet 0 (the entities list) and the sheet named
"Metadata" when it exists. -/
structure Workbook where
  sheet0 : Sheet
  metadata : Option Sheet

/-- One row of the entity list after load: `Entity` (display name) and
`Schema Name` columns. -/
structure TableEntry where
  displayName : String
  schemaName : String
  deriving Repr, DecidableEq

/-- One row of the Metadata sheet after load: `Entity Logical Name`,
`Schema Name` and `Display Name` columns. -/
structure FieldEntry where
  ownerEntityLogicalName : String
  schemaName : String
  displayName : String
  deriving Repr, DecidableEq

/-- pandas `read_excel` with `skiprows`: skip that many physical rows, the
next row becomes the (initial) column header, the rest is the data.
`none` models the failure when no header row remains. -/
def readExcel (sheet : Sheet) (skiprows : Nat) : Option (Row × Sheet) :=
  match sheet.drop skiprows with
  | [] => none
  | h :: rest => some (h, rest)

/-- Index of a column label in a header row (`df[label]`); `none` models
the KeyError when the label is absent. -/
def colIndex (header : Row) (label : String) : Option Nat :=
  header.findIdx? (fun c => c == some label)

/-- The cell of a row at a column index; a short row is padded with NaN. -/
def cellAt (r : Row) (i : Nat) : Cell :=
  r.getD i none

/-- Projection of an entity-sheet row onto the `Entity` and `Schema Name`
columns (indices `i`, `j`). -/
def projTableRow (i j : Nat) (r : Row) : Cell × Cell :=
  (cellAt r i, cellAt r j)

/-- dropna on a two-column selection: keep the rows with both cells
present. -/
def keepPair : Cell × Cell → Option TableEntry
  | (some a, some b) => some ⟨a, b⟩
  | _ => none

def dropnaTable (l : List (Cell × Cell)) : List TableEntry :=
  l.filterMap keepPair

/-- The two-column entity selection before dropna
(`entities_df[['Entity', 'Schema Name']]`): `read_excel(sheet_name=0,
skiprows=1)`, then `entities_df.columns = entities_df.iloc[0]` and
`entities_df = entities_df[1:]` promote the first data row to headers. -/
def entityCandidates (sheet0 : Sheet) : Option (List (Cell × Cell)) :=
  match readExcel sheet0 1 with
  | none => none
  | some (_, data0) =>
    match data0 with
    | [] => none
    | hdr :: data =>
      match colIndex hdr "Entity", colIndex hdr "Schema Name" with
      | some i, some j => some (data.map (projTableRow i j))
      | _, _ => none

/-- `table_list = entities_df[['Entity', 'Schema Name']].dropna()`. -/
def table_list (sheet0 : Sheet) : Option (List TableEntry) :=
  (entityCandidates sheet0).map dropnaTable

/-- Projection of a Metadata row onto the three required columns, `none`
when any required cell is missing (the row a later dropna removes). -/
def projFieldRow (i j k : Nat) (r : Row) : Option FieldEntry :=
  match cellAt r i, cellAt r j, cellAt r k with
  | some a, some b, some c => some ⟨a, b, c⟩
  | _, _, _ => none

/-- The sheet named "Metadata" is read with its first row as header, and
`fields_df = df[['Entity Logical Name', 'Schema Name', 'Display Name']]
.dropna()`. -/
def fields_df (meta : Sheet) : Option (List FieldEntry) :=
  match readExcel meta 0 with
  | none => none
  | some (hdr, data) =>
    match colIndex hdr "Entity Logical Name", colIndex hdr "Schema Name",
          colIndex hdr "Display Name" with
    | some i, some j, some k => some (data.filterMap (projFieldRow i j k))
    | _, _, _ => none

/-- Python `str.lower()` (ASCII case mapping), character by character. -/
def strLower (s : String) : String :=
  String.mk (s.data.map Char.toLower)

/-- The join filter: `fields_df[fields_df['Entity Logical Name'].str.lower()
== table_schema_name.lower()]`. -/
def selectFields (fields : List FieldEntry) (t : TableEntry) : List FieldEntry :=
  fields.filter
    (fun f => strLower f.ownerEntityLogicalName == strLower t.schemaName)

/-- Python format `s:<w`: left-justify by padding with spaces up to width
`w`; a string already at least `w` long is printed in full, unchanged. -/
def ljust (s : String) (w : Nat) : String :=
  s ++ String.mk (List.replicate (w - s.length) ' ')

/-- A banner of repeated characters (Python `'=' * n`, `'-' * n`). -/
def banner (c : Char) (n : Nat) : String :=
  String.mk (List.replicate n c)

/-- One printed line per matching field:
`print(f"{field_display:<50} {field_schema:<45}")`. -/
def fieldLine (f : FieldEntry) : String :=
  ljust f.displayName 50 ++ " " ++ ljust f.schemaName 45

/-- The lines one table contributes to the fields report (the body of the
`for idx, table_row in table_list.iterrows()` loop, one list element per
`print` call). -/
def tableSection (t : TableEntry) (fs : List FieldEntry) : List String :=
  if fs.length > 0 then
    ["\n\n" ++ banner '=' 100,
     "TABLE: " ++ t.displayName ++ " (Schema: " ++ t.schemaName ++ ")",
     banner '=' 100,
     ljust "Field Display Name" 50 ++ " " ++ ljust "Field Schema Name" 45,
     banner '-' 100]
    ++ fs.map fieldLine
    ++ ["\nTotal Fields: " ++ toString fs.length]
  else
    ["\n\nTABLE: " ++ t.displayName ++ " (Schema: " ++ t.schemaName
      ++ ") - No fields found"]

/-- Everything `extract_fields.py` prints once both loads succeeded. -/
def fieldsReport (tables : List TableEntry) (fields : List FieldEntry) :
    List String :=
  [banner '=' 100, "POWER BI TABLES AND FIELDS", banner '=' 100]
  ++ tables.flatMap (fun t => tableSection t (selectFields fields t))
  ++ ["\n\n" ++ banner '=' 100, "EXTRACTION COMPLETE", banner '=' 100]

/-- One printed line per table in `extract_tables.py`:
`print(f"{entity:<35} {schema:<40}")`. -/
def tableRowLine (t : TableEntry) : String :=
  ljust t.displayName 35 ++ " " ++ ljust t.schemaName 40

/-- Everything `extract_tables.py` prints once the load succeeded. -/
def tablesReport (result : List TableEntry) : List String :=
  ["Power BI Tables List:",
   banner '=' 80,
   "\n" ++ ljust "Display Name" 35 ++ " " ++ ljust "Schema Name" 40,
   banner '-' 80]
  ++ result.map tableRowLine
  ++ ["\n" ++ banner '=' 80,
      "Total Tables: " ++ toString result.length]

/-- Outcome of one run: an explicit `sys.exit(code)` after printing `out`,
or an unhandled exception (a pandas KeyError / IndexError / missing-sheet
error), which aborts before any report line is printed. -/
inductive RunResult where
  | exit (code : Nat) (out : List String)
  | crash (out : List String)
  deriving Repr, DecidableEq

/-- The ASCII apostrophe, used inside the usage examples. -/
def apos : String := String.mk [Char.ofNat 39]

def usageFields : List String :=
  ["Usage: python extract_fields.py <metadata_folder>",
   "Example: python extract_fields.py " ++ apos
     ++ "Reports/Dynamics 365 Sales/Metadata" ++ apos]

def usageTables : List String :=
  ["Usage: python extract_tables.py <metadata_folder>",
   "Example: python extract_tables.py " ++ apos
     ++ "Reports/Dynamics 365 Sales/Metadata" ++ apos]

/-- The pure part of `extract_fields.py` after the file was chosen: read
the "Metadata" sheet, the entity sheet, select and dropna, and render; any
load failure is `none` (an unhandled exception, before any printing). -/
def fieldsProgramOut (wb : Workbook) : Option (List String) :=
  match wb.metadata with
  | none => none
  | some meta =>
    match fields_df meta, table_list wb.sheet0 with
    | some fields, some tables => some (fieldsReport tables fields)
    | _, _ => none

/-- The pure part of `extract_tables.py` after the file was chosen. -/
def tablesProgramOut (wb : Workbook) : Option (List String) :=
  match table_list wb.sheet0 with
  | some result => some (tablesReport result)
  | none => none

/-- A full run of `extract_fields.py`: `argv` is `sys.argv` (the script
name included), `files` the result of `glob.glob(os.path.join(folder,
'*.xlsx'))` in directory order, and `wbOf` gives the workbook stored at
each path.  The script checks `len(sys.argv) < 2`, then takes
`excel_files[0]`. -/
def extractFieldsRun (argv files : List String) (wbOf : String → Workbook) :
    RunResult :=
  if argv.length < 2 then
    RunResult.exit 1 usageFields
  else
    match files with
    | [] =>
      RunResult.exit 1
        ["Error: No Excel files found in " ++ argv.getD 1 ""]
    | f :: _ =>
      match fieldsProgramOut (wbOf f) with
      | some out => RunResult.exit 0 out
      | none => RunResult.crash []

/-- A full run of `extract_tables.py`. -/
def extractTablesRun (argv files : List String) (wbOf : String → Workbook) :
    RunResult :=
  if argv.length < 2 then
    RunResult.exit 1 usageTables
  else
    match files with
    | [] =>
      RunResult.exit 1
        ["Error: No Excel files found in " ++ argv.getD 1 ""]
    | f :: _ =>
      match tablesProgramOut (wbOf f) with
      | some out => RunResult.exit 0 out
      | none => RunResult.crash []

/-! Helper lemmas -/

/-- A concrete FieldEntry whose owner-entity logical name is "Account". -/
def accountField : FieldEntry := ⟨"Account", "name", "Account Name"⟩

/-- An entity sheet with the true column headers in physical row 1, as the
claim describes: a decorative title row, then "Entity"/"Schema Name",
then two complete data rows. -/
def c2Sheet : Sheet :=
  [[some "Entities list"],
   [some "Entity", some "Schema Name"],
   [some "Account", some "account"],
   [some "Contact", some "contact"]]

/-- A concrete entity sheet: title row, a filler row consumed by the
initial header read, the true headers, one complete data row. -/
def wEntitySheet : Sheet :=
  [[some "Entities list"],
   [some "filler"],
   [some "Entity", some "Schema Name"],
   [some "Account", some "account"]]

/-- A display name of 51 characters, one more than the column width. -/
def longName : String := String.mk (List.replicate 51 'a')

/-! Helper lemmas and the claims -/

theorem length_filterMap_lt {α β : Type} (g : α → Option β) (l : List α)
    (h : ∃ x ∈ l, g x = none) : (l.filterMap g).length < l.length := by
  induction l with
  | nil => simp at h
  | cons a l ih =>
    rcases h with ⟨x, hx, hgx⟩
    rcases List.mem_cons.mp hx with rfl | hxl
    · rw [List.filterMap_cons, hgx]
      exact Nat.lt_succ_of_le (List.length_filterMap_le g l)
    · rw [List.filterMap_cons]
      cases hga : g a with
      | none => exact Nat.lt_succ_of_le (List.length_filterMap_le g l)
      | some b => simpa using Nat.succ_lt_succ (ih ⟨x, hxl, hgx⟩)

theorem keepPair_none_left (y : Cell) : keepPair (none, y) = none := by
  cases y <;> rfl

theorem keepPair_none_right (x : Cell) : keepPair (x, none) = none := by
  cases x <;> rfl

theorem projFieldRow_none {i j k : Nat} {r : Row}
    (h : cellAt r i = none ∨ cellAt r j = none ∨ cellAt r k = none) :
    projFieldRow i j k r = none := by
  unfold projFieldRow
  rcases h with h | h | h <;> rw [h] <;>
    cases hi : cellAt r i <;> cases hj : cellAt r j <;> cases hk : cellAt r k <;> rfl

/-- C1: a FieldEntry is selected for a TableEntry's report section exactly
when its ownerEntityLogicalName, lowered, equals the table's schemaName
lowered; in particular the owner "Account" matches the schema names
"account" and "ACCOUNT". -/
theorem c1_case_insensitive_join (fields : List FieldEntry) (t : TableEntry)
    (f : FieldEntry) :
    (f ∈ selectFields fields t
      ↔ f ∈ fields
        ∧ strLower f.ownerEntityLogicalName = strLower t.schemaName)
    ∧ selectFields [accountField] ⟨"Account Table", "account"⟩ = [accountField]
    ∧ selectFields [accountField] ⟨"Account Table", "ACCOUNT"⟩ = [accountField] := by
  refine ⟨?_, by decide, by decide⟩
  simp [selectFields, List.mem_filter]

/-- C2 counterexample: on a 4-row entity sheet whose true headers sit in
row 1, the loader does not yield 4 - 2 = 2 candidates; it fails (KeyError),
because `read_excel(skiprows=1)` already consumed row 1 as the pandas
header and the code then promotes the first data row (physical row 2) to
column headers. -/
theorem c2_counterexample :
    c2Sheet.length = 4
    ∧ (entityCandidates c2Sheet).map List.length ≠ some (c2Sheet.length - 2)
    ∧ table_list c2Sheet = none := by decide

/-- C2 (amended): for a sheet with a decorative row 0, a row 1 consumed by
the initial header read, and the true "Entity"/"Schema Name" headers in
physical row 2, the loader yields exactly rowcount - 3 candidates before
dropna, and strictly fewer entries after dropna when some candidate row
has a blank cell in either column. -/
theorem c2_amended_candidates (r0 r1 hdr : Row) (data : List Row) (i j : Nat)
    (hi : colIndex hdr "Entity" = some i)
    (hj : colIndex hdr "Schema Name" = some j) :
    ∃ cands, entityCandidates (r0 :: r1 :: hdr :: data) = some cands
      ∧ cands.length = (r0 :: r1 :: hdr :: data).length - 3
      ∧ ((∃ r ∈ data, cellAt r i = none ∨ cellAt r j = none) →
          (dropnaTable cands).length < (r0 :: r1 :: hdr :: data).length - 3) := by
  have hcand : entityCandidates (r0 :: r1 :: hdr :: data)
      = some (data.map (projTableRow i j)) := by
    show (match colIndex hdr "Entity", colIndex hdr "Schema Name" with
          | some i, some j => some (data.map (projTableRow i j))
          | _, _ => none) = some (data.map (projTableRow i j))
    rw [hi, hj]
  refine ⟨data.map (projTableRow i j), hcand, by simp, ?_⟩
  rintro ⟨r, hr, hbad⟩
  have hlen : (r0 :: r1 :: hdr :: data).length - 3 = data.length := by simp
  rw [hlen]
  unfold dropnaTable
  rw [List.filterMap_map]
  apply length_filterMap_lt
  refine ⟨r, hr, ?_⟩
  show keepPair (projTableRow i j r) = none
  unfold projTableRow
  rcases hbad with h | h <;> rw [h]
  · exact keepPair_none_left _
  · exact keepPair_none_right _

/-- C2 witness: the amended statement at a concrete sheet (5 physical
rows, headers in row 2, one data row with a blank Schema Name cell). -/
theorem c2_amended_witness :
    ∃ cands, entityCandidates
        ([some "Entities list"] :: [none] :: [some "Entity", some "Schema Name"]
          :: [[some "Account", none], [some "Contact", some "contact"]])
      = some cands
    ∧ cands.length
        = ([some "Entities list"] :: [none] :: [some "Entity", some "Schema Name"]
            :: [[some "Account", none], [some "Contact", some "contact"]]).length - 3
    ∧ ((∃ r ∈ [[some "Account", none], [some "Contact", some "contact"]],
          cellAt r 0 = none ∨ cellAt r 1 = none) →
        (dropnaTable cands).length
          < ([some "Entities list"] :: [none] :: [some "Entity", some "Schema Name"]
              :: [[some "Account", none], [some "Contact", some "contact"]]).length - 3) :=
  c2_amended_candidates [some "Entities list"] [none]
    [some "Entity", some "Schema Name"]
    [[some "Account", none], [some "Contact", some "contact"]] 0 1 rfl rfl

/-- C3: when the selection of matching fields is non-empty, the table's
section is a 5-line header (one line of which names the table's display
name and schema name), one `fieldLine` per matching field in original
order, and a final count line carrying the number of matching fields. -/
theorem c3_nonempty_section (t : TableEntry) (fields : List FieldEntry)
    (h : selectFields fields t ≠ []) :
    ∃ hdr : List String,
      tableSection t (selectFields fields t)
        = hdr ++ (selectFields fields t).map fieldLine
          ++ ["\nTotal Fields: " ++ toString (selectFields fields t).length]
      ∧ hdr.length = 5
      ∧ ("TABLE: " ++ t.displayName ++ " (Schema: " ++ t.schemaName ++ ")")
          ∈ hdr := by
  refine ⟨["\n\n" ++ banner '=' 100,
           "TABLE: " ++ t.displayName ++ " (Schema: " ++ t.schemaName ++ ")",
           banner '=' 100,
           ljust "Field Display Name" 50 ++ " " ++ ljust "Field Schema Name" 45,
           banner '-' 100], ?_, rfl, ?_⟩
  · unfold tableSection
    rw [if_pos (List.length_pos.mpr h)]
  · simp

/-- C3 witness: the section for a table with one matching field. -/
theorem c3_witness :
    ∃ hdr : List String,
      tableSection ⟨"Account", "account"⟩
          (selectFields [accountField] ⟨"Account", "account"⟩)
        = hdr ++ (selectFields [accountField] ⟨"Account", "account"⟩).map fieldLine
          ++ ["\nTotal Fields: "
              ++ toString (selectFields [accountField] ⟨"Account", "account"⟩).length]
      ∧ hdr.length = 5
      ∧ ("TABLE: " ++ "Account" ++ " (Schema: " ++ "account" ++ ")") ∈ hdr :=
  c3_nonempty_section ⟨"Account", "account"⟩ [accountField] (by decide)

theorem count_line_ne_no_fields_line (s u1 u2 u3 u4 : String) :
    ("\nTotal Fields: " ++ s) ≠ ("\n\nTABLE: " ++ u1 ++ u2 ++ u3 ++ u4) := by
  intro h
  have hd := congrArg String.data h
  simp only [String.data_append] at hd
  simp only [List.cons_append, List.append_assoc] at hd
  injection hd with h3 hd2
  injection hd2 with h4 hd3
  exact absurd h4 (by decide)

/-- C4: a table with zero matching fields contributes exactly one line, a
header noting that no fields were found, and no count line (for no `n` is
the count line "Total Fields: n" among its lines). -/
theorem c4_no_fields_section (t : TableEntry) (fields : List FieldEntry)
    (h : selectFields fields t = []) :
    tableSection t (selectFields fields t)
      = ["\n\nTABLE: " ++ t.displayName ++ " (Schema: " ++ t.schemaName
          ++ ") - No fields found"]
    ∧ ∀ n : Nat, ("\nTotal Fields: " ++ toString n)
        ∉ tableSection t (selectFields fields t) := by
  rw [h]
  have hsec : tableSection t []
      = ["\n\nTABLE: " ++ t.displayName ++ " (Schema: " ++ t.schemaName
          ++ ") - No fields found"] := by
    unfold tableSection
    rw [if_neg (by simp)]
  refine ⟨hsec, ?_⟩
  intro n hmem
  rw [hsec] at hmem
  have heq := List.mem_singleton.mp hmem
  exact absurd heq (count_line_ne_no_fields_line (toString n) t.displayName
    " (Schema: " t.schemaName ") - No fields found")

/-- C4 witness: a concrete table matched by no field. -/
theorem c4_witness :
    tableSection ⟨"Contact", "contact"⟩
        (selectFields [accountField] ⟨"Contact", "contact"⟩)
      = ["\n\nTABLE: " ++ "Contact" ++ " (Schema: " ++ "contact"
          ++ ") - No fields found"]
    ∧ ∀ n : Nat, ("\nTotal Fields: " ++ toString n)
        ∉ tableSection ⟨"Contact", "contact"⟩
            (selectFields [accountField] ⟨"Contact", "contact"⟩) :=
  c4_no_fields_section ⟨"Contact", "contact"⟩ [accountField] (by decide)

/-- C5: a run exits with status 1 exactly when the folder argument is
missing (`len(sys.argv) < 2`) or the folder holds no .xlsx file, and any
run whose loading completes exits with status 0 after printing the
report (an unhandled load exception is a crash, not an explicit exit). -/
theorem c5_exit_codes (argv files : List String) (wbOf : String → Workbook) :
    ((∃ out, extractFieldsRun argv files wbOf = RunResult.exit 1 out)
        ↔ (argv.length < 2 ∨ files = []))
    ∧ ((∃ out, extractTablesRun argv files wbOf = RunResult.exit 1 out)
        ↔ (argv.length < 2 ∨ files = []))
    ∧ (∀ f rest out, files = f :: rest → 2 ≤ argv.length →
        fieldsProgramOut (wbOf f) = some out →
        extractFieldsRun argv files wbOf = RunResult.exit 0 out)
    ∧ (∀ f rest out, files = f :: rest → 2 ≤ argv.length →
        tablesProgramOut (wbOf f) = some out →
        extractTablesRun argv files wbOf = RunResult.exit 0 out) := by
  by_cases h : argv.length < 2
  · refine ⟨?_, ?_, ?_, ?_⟩
    · simp [extractFieldsRun, h]
    · simp [extractTablesRun, h]
    · intro f rest out hf h2 _; omega
    · intro f rest out hf h2 _; omega
  · cases files with
    | nil =>
      refine ⟨?_, ?_, ?_, ?_⟩
      · simp [extractFieldsRun, h]
      · simp [extractTablesRun, h]
      · intro f rest out hf; cases hf
      · intro f rest out hf; cases hf
    | cons f0 rest0 =>
      have hrunF : extractFieldsRun argv (f0 :: rest0) wbOf
          = (match fieldsProgramOut (wbOf f0) with
             | some out => RunResult.exit 0 out
             | none => RunResult.crash []) := by
        unfold extractFieldsRun
        rw [if_neg h]
      have hrunT : extractTablesRun argv (f0 :: rest0) wbOf
          = (match tablesProgramOut (wbOf f0) with
             | some out => RunResult.exit 0 out
             | none => RunResult.crash []) := by
        unfold extractTablesRun
        rw [if_neg h]
      refine ⟨?_, ?_, ?_, ?_⟩
      · rw [hrunF]
        cases hpo : fieldsProgramOut (wbOf f0) <;> simp [h]
      · rw [hrunT]
        cases hpo : tablesProgramOut (wbOf f0) <;> simp [h]
      · intro f rest out hf h2 hpo
        injection hf with hf1 hf2
        subst hf1
        rw [hrunF, hpo]
      · intro f rest out hf h2 hpo
        injection hf with hf1 hf2
        subst hf1
        rw [hrunT, hpo]

/-- C6: a row missing a required value, in the Metadata sheet or in the
entity sheet, is dropped from the loaded entries and leaves every printed
line of both programs unchanged: nothing is reported about it and no
count anywhere reflects it. -/
theorem c6_silent_drop :
    (∀ (ent : Sheet) (hdr : Row) (d1 d2 : List Row) (r : Row) (i j k : Nat),
        colIndex hdr "Entity Logical Name" = some i →
        colIndex hdr "Schema Name" = some j →
        colIndex hdr "Display Name" = some k →
        (cellAt r i = none ∨ cellAt r j = none ∨ cellAt r k = none) →
        fields_df (hdr :: (d1 ++ r :: d2)) = fields_df (hdr :: (d1 ++ d2))
        ∧ fieldsProgramOut ⟨ent, some (hdr :: (d1 ++ r :: d2))⟩
            = fieldsProgramOut ⟨ent, some (hdr :: (d1 ++ d2))⟩)
    ∧ (∀ (meta : Option Sheet) (r0 r1 hdr : Row) (d1 d2 : List Row)
          (r : Row) (i j : Nat),
        colIndex hdr "Entity" = some i →
        colIndex hdr "Schema Name" = some j →
        (cellAt r i = none ∨ cellAt r j = none) →
        table_list (r0 :: r1 :: hdr :: (d1 ++ r :: d2))
            = table_list (r0 :: r1 :: hdr :: (d1 ++ d2))
        ∧ fieldsProgramOut ⟨r0 :: r1 :: hdr :: (d1 ++ r :: d2), meta⟩
            = fieldsProgramOut ⟨r0 :: r1 :: hdr :: (d1 ++ d2), meta⟩
        ∧ tablesProgramOut ⟨r0 :: r1 :: hdr :: (d1 ++ r :: d2), meta⟩
            = tablesProgramOut ⟨r0 :: r1 :: hdr :: (d1 ++ d2), meta⟩) := by
  constructor
  · intro ent hdr d1 d2 r i j k hi hj hk hbad
    have hnone : projFieldRow i j k r = none := projFieldRow_none hbad
    have hdf : fields_df (hdr :: (d1 ++ r :: d2)) = fields_df (hdr :: (d1 ++ d2)) := by
      have e1 : fields_df (hdr :: (d1 ++ r :: d2))
          = (match colIndex hdr "Entity Logical Name", colIndex hdr "Schema Name",
                   colIndex hdr "Display Name" with
             | some i, some j, some k =>
                some ((d1 ++ r :: d2).filterMap (projFieldRow i j k))
             | _, _, _ => none) := rfl
      have e2 : fields_df (hdr :: (d1 ++ d2))
          = (match colIndex hdr "Entity Logical Name", colIndex hdr "Schema Name",
                   colIndex hdr "Display Name" with
             | some i, some j, some k =>
                some ((d1 ++ d2).filterMap (projFieldRow i j k))
             | _, _, _ => none) := rfl
      rw [e1, e2, hi, hj, hk]
      simp [List.filterMap_append, List.filterMap_cons, hnone]
    refine ⟨hdf, ?_⟩
    show (match fields_df (hdr :: (d1 ++ r :: d2)), table_list ent with
          | some fields, some tables => some (fieldsReport tables fields)
          | _, _ => none)
        = (match fields_df (hdr :: (d1 ++ d2)), table_list ent with
          | some fields, some tables => some (fieldsReport tables fields)
          | _, _ => none)
    rw [hdf]
  · intro meta r0 r1 hdr d1 d2 r i j hi hj hbad
    have hkp : keepPair (projTableRow i j r) = none := by
      unfold projTableRow
      rcases hbad with h | h <;> rw [h]
      · exact keepPair_none_left _
      · exact keepPair_none_right _
    have hcand1 : entityCandidates (r0 :: r1 :: hdr :: (d1 ++ r :: d2))
        = some ((d1 ++ r :: d2).map (projTableRow i j)) := by
      show (match colIndex hdr "Entity", colIndex hdr "Schema Name" with
            | some i, some j => some ((d1 ++ r :: d2).map (projTableRow i j))
            | _, _ => none) = _
      rw [hi, hj]
    have hcand2 : entityCandidates (r0 :: r1 :: hdr :: (d1 ++ d2))
        = some ((d1 ++ d2).map (projTableRow i j)) := by
      show (match colIndex hdr "Entity", colIndex hdr "Schema Name" with
            | some i, some j => some ((d1 ++ d2).map (projTableRow i j))
            | _, _ => none) = _
      rw [hi, hj]
    have htl : table_list (r0 :: r1 :: hdr :: (d1 ++ r :: d2))
        = table_list (r0 :: r1 :: hdr :: (d1 ++ d2)) := by
      unfold table_list
      rw [hcand1, hcand2]
      simp only [Option.map_some']
      congr 1
      unfold dropnaTable
      rw [List.filterMap_map, List.filterMap_map]
      simp [List.filterMap_append, List.filterMap_cons, Function.comp, hkp]
    refine ⟨htl, ?_, ?_⟩
    · cases meta with
      | none => rfl
      | some m =>
        show (match fields_df m, table_list (r0 :: r1 :: hdr :: (d1 ++ r :: d2)) with
              | some fields, some tables => some (fieldsReport tables fields)
              | _, _ => none)
            = (match fields_df m, table_list (r0 :: r1 :: hdr :: (d1 ++ d2)) with
              | some fields, some tables => some (fieldsReport tables fields)
              | _, _ => none)
        rw [htl]
    · show (match table_list (r0 :: r1 :: hdr :: (d1 ++ r :: d2)) with
            | some result => some (tablesReport result)
            | none => none)
          = (match table_list (r0 :: r1 :: hdr :: (d1 ++ d2)) with
            | some result => some (tablesReport result)
            | none => none)
      rw [htl]

/-- C7: when the entity load succeeds, the table-list variant prints one
fixed-width line per loaded TableEntry in original order, and its final
line carries the count of exactly those entries. -/
theorem c7_tables_report (argv files : List String) (wbOf : String → Workbook)
    (f : String) (rest : List String) (result : List TableEntry)
    (hf : files = f :: rest) (hargs : 2 ≤ argv.length)
    (hload : table_list (wbOf f).sheet0 = some result) :
    extractTablesRun argv files wbOf
      = RunResult.exit 0
          (["Power BI Tables List:",
            banner '=' 80,
            "\n" ++ ljust "Display Name" 35 ++ " " ++ ljust "Schema Name" 40,
            banner '-' 80]
           ++ result.map tableRowLine
           ++ ["\n" ++ banner '=' 80,
               "Total Tables: " ++ toString result.length]) := by
  subst hf
  unfold extractTablesRun
  rw [if_neg (by omega)]
  show (match tablesProgramOut (wbOf f) with
        | some out => RunResult.exit 0 out
        | none => RunResult.crash []) = _
  unfold tablesProgramOut
  rw [hload]
  rfl

/-- C7 witness: the report over a workbook loading one table. -/
theorem c7_witness :
    extractTablesRun ["extract_tables.py", "Metadata"] ["Book.xlsx"]
        (fun _ => Workbook.mk wEntitySheet none)
      = RunResult.exit 0
          (["Power BI Tables List:",
            banner '=' 80,
            "\n" ++ ljust "Display Name" 35 ++ " " ++ ljust "Schema Name" 40,
            banner '-' 80]
           ++ [TableEntry.mk "Account" "account"].map tableRowLine
           ++ ["\n" ++ banner '=' 80,
               "Total Tables: "
                 ++ toString [TableEntry.mk "Account" "account"].length]) :=
  c7_tables_report ["extract_tables.py", "Metadata"] ["Book.xlsx"]
    (fun _ => Workbook.mk wEntitySheet none) "Book.xlsx" []
    [TableEntry.mk "Account" "account"] rfl (by decide) rfl

theorem ljust_length (s : String) (w : Nat) :
    (ljust s w).length = max s.length w := by
  unfold ljust
  rw [String.length_append]
  show s.length + (List.replicate (w - s.length) ' ').length = max s.length w
  rw [List.length_replicate]
  omega

/-- C8 counterexample: a 51-character display name occupies 51 columns in
its field line, not the fixed width 50 — Python `:<50` pads but never
truncates. -/
theorem c8_counterexample :
    longName.length = 51
    ∧ (ljust longName 50).length ≠ 50
    ∧ fieldLine ⟨"account", "name", longName⟩
        = ljust longName 50 ++ " " ++ ljust "name" 45 :=
  ⟨by decide, by decide, rfl⟩

/-- C8 (amended): the display-name column of a field line is the display
name left-justified and padded to width 50; it occupies exactly 50
characters when the name fits, and the name's own (greater) length when
it is longer. -/
theorem c8_amended_padding (f : FieldEntry) :
    fieldLine f = ljust f.displayName 50 ++ " " ++ ljust f.schemaName 45
    ∧ (ljust f.displayName 50).length = max f.displayName.length 50
    ∧ (f.displayName.length ≤ 50 → (ljust f.displayName 50).length = 50) := by
  refine ⟨rfl, ljust_length f.displayName 50, ?_⟩
  intro h
  rw [ljust_length]
  omega

/-- C9: both scripts are deterministic functions of the command line, the
directory listing and the workbook contents, so two runs over unchanged
inputs print identical lines and end with the same result. -/
theorem c9_deterministic (argv1 files1 : List String)
    (wbOf1 : String → Workbook) (argv2 files2 : List String)
    (wbOf2 : String → Workbook)
    (ha : argv1 = argv2) (hf : files1 = files2) (hw : wbOf1 = wbOf2) :
    extractFieldsRun argv1 files1 wbOf1 = extractFieldsRun argv2 files2 wbOf2
    ∧ extractTablesRun argv1 files1 wbOf1
        = extractTablesRun argv2 files2 wbOf2 := by
  subst ha
  subst hf
  subst hw
  exact ⟨rfl, rfl⟩

/-- C9 witness: two identical runs at a concrete input agree. -/
theorem c9_witness :
    extractFieldsRun ["extract_fields.py", "Metadata"] ["Book.xlsx"]
        (fun _ => Workbook.mk wEntitySheet none)
      = extractFieldsRun ["extract_fields.py", "Metadata"] ["Book.xlsx"]
        (fun _ => Workbook.mk wEntitySheet none)
    ∧ extractTablesRun ["extract_fields.py", "Metadata"] ["Book.xlsx"]
        (fun _ => Workbook.mk wEntitySheet none)
      = extractTablesRun ["extract_fields.py", "Metadata"] ["Book.xlsx"]
        (fun _ => Workbook.mk wEntitySheet none) :=
  c9_deterministic ["extract_fields.py", "Metadata"] ["Book.xlsx"]
    (fun _ => Workbook.mk wEntitySheet none)
    ["extract_fields.py", "Metadata"] ["Book.xlsx"]
    (fun _ => Workbook.mk wEntitySheet none) rfl rfl rfl

/-- C10: with several .xlsx files present, both scripts behave exactly as
if only the first file (in directory-search order) existed: the others
are ignored and nothing about them is printed. -/
theorem c10_first_file_only (argv : List String) (f : String)
    (rest : List String) (wbOf : String → Workbook) :
    extractFieldsRun argv (f :: rest) wbOf = extractFieldsRun argv [f] wbOf
    ∧ extractTablesRun argv (f :: rest) wbOf = extractTablesRun argv [f] wbOf := by
  by_cases h : argv.length < 2 <;>
    simp [extractFieldsRun, extractTablesRun, h]
